import Mathlib

/-!
Shallow embedding of the Defeat_Evil_Wizard combat engine
(`base.py`, `characters.py`, `enemy.py`, `battle.py`) and proofs of the
specification's claims about it.

Modelling conventions:
* Python ints and floats that enter stat arithmetic are modelled as `Rat`;
  every numeric constant in the program (0.5, 0.25, 0.75, 0.05, 0.1, …) is a
  dyadic rational, represented exactly by both IEEE doubles and `Rat`, and the
  program only adds, subtracts, multiplies, halves, compares and min/max-es
  them, so the `Rat` semantics coincides with the Python float semantics on
  every reachable value.
* `random.random()` / `random.randint(a, b)` draws are passed in as explicit
  arguments (`evadeRoll`, `fresh`), so each operation is a pure function of
  the state and the sampled values.
* The `status_effects` dict with its fixed key set is flattened into one
  field per slot; a magnitude slot is a `Rat × Int` pair
  (magnitude, turns remaining), the binary `stunned` slot an `Int`.
* The `abilities` dict (name ↦ cooldown length) and the `cooldowns` dict
  (name ↦ turns remaining) are association lists with the insertion order of
  the source.
-/

/-- Dict lookup, `d[k]` / `d.get(k)`: value of the first matching key. -/
def lookupNat (l : List (String × Nat)) (k : String) : Option Nat :=
  match l with
  | [] => none
  | p :: rest => if p.1 = k then some p.2 else lookupNat rest k

/-- Dict assignment `d[k] = v`: overwrite the existing entry, or append. -/
def dictSet (l : List (String × Nat)) (k : String) (v : Nat) :
    List (String × Nat) :=
  match l with
  | [] => [(k, v)]
  | p :: rest => if p.1 = k then (p.1, v) :: rest else p :: dictSet rest k v

/-- A magnitude status-effect slot: (magnitude, turns remaining).
`base.py` stores these as `(value, duration)` tuples. -/
abbrev Slot := Rat × Int

/-- `Character.__init__` state (`base.py` lines 10–46), with the
`status_effects` dict flattened into one field per key. -/
structure Character where
  name : String
  health : Rat
  attack_power : Rat
  cached_attack_roll : Option Rat
  defense : Rat
  evasion_chance : Rat
  max_health : Rat
  stunned : Int
  weakened : Slot
  vulnerable : Slot
  slowed : Slot
  shielded : Slot
  empowered : Slot
  evade_boost : Slot
  abilities : List (String × Nat)
  cooldowns : List (String × Nat)
  deriving Repr, DecidableEq

/-- The buff/debuff arithmetic of `Character.get_effective_attack`
(`base.py` lines 54–60) applied to an attack roll `atk`:
add `empowered`, subtract `weakened` when their turns remaining are > 0,
floor at 1. -/
def effAttackVal (c : Character) (atk : Rat) : Rat :=
  let atk := if c.empowered.2 > 0 then atk + c.empowered.1 else atk
  let atk := if c.weakened.2 > 0 then atk - c.weakened.1 else atk
  max 1 atk

/-- `Character.get_effective_attack` (`base.py` lines 48–60).  If no attack
roll is cached, the method draws `random.randint(base, base + 5)` and caches
it; `fresh` stands for that draw.  Returns the effective attack together
with the mutated character (the cache write). -/
def get_effective_attack (c : Character) (fresh : Rat) : Rat × Character :=
  let roll := c.cached_attack_roll.getD fresh
  (effAttackVal c roll, { c with cached_attack_roll := some roll })

/-- `Character.get_effective_defense` (`base.py` lines 62–69). -/
def get_effective_defense (c : Character) : Rat :=
  let defn := c.defense
  let defn := if c.shielded.2 > 0 then defn + c.shielded.1 else defn
  let defn := if c.vulnerable.2 > 0 then defn - c.vulnerable.1 else defn
  max 0 defn

/-- `Character.get_effective_evasion` (`base.py` lines 71–78). -/
def get_effective_evasion (c : Character) : Rat :=
  let eva := c.evasion_chance
  let eva := if c.evade_boost.2 > 0 then eva + c.evade_boost.1 else eva
  let eva := if c.slowed.2 > 0 then eva - c.slowed.1 else eva
  max 0 (min 1 eva)

/-- `Character.try_evade` (`base.py` lines 80–98): `evadeRoll` is the
`random.random()` sample in [0,1). -/
def try_evade (c : Character) (evadeRoll : Rat) : Bool :=
  evadeRoll < get_effective_evasion c

/-- `Character.attack` (`base.py` lines 100–116).  `evadeRoll` is the
defender's evasion sample, `fresh` the attack roll drawn if none is cached.
Returns (attacker, opponent) after the call. -/
def attack (a t : Character) (evadeRoll fresh : Rat) :
    Character × Character :=
  if try_evade t evadeRoll then
    ({ a with cached_attack_roll := none }, t)
  else
    let (atk, a1) := get_effective_attack a fresh
    let damage := max 1 (atk - get_effective_defense t)
    ({ a1 with cached_attack_roll := none },
     { t with health := t.health - damage })

/-- `Character.is_ability_ready` (`base.py` lines 118–128):
`self.cooldowns.get(ability, 0) == 0`. -/
def is_ability_ready (c : Character) (ability : String) : Bool :=
  (lookupNat c.cooldowns ability).getD 0 = 0

/-- `Character.use_ability` (`base.py` lines 130–145).  `none` models the
`KeyError` on an unregistered name (`self.abilities[ability_name]`);
otherwise returns the mutated character and the success flag. -/
def use_ability (c : Character) (ability_name : String) :
    Option (Character × Bool) :=
  match lookupNat c.abilities ability_name with
  | none => none
  | some cd =>
    if is_ability_ready c ability_name then
      some ({ c with cooldowns := dictSet c.cooldowns ability_name cd }, true)
    else
      some (c, false)

/-- `Character.heal` (`base.py` lines 170–179): +10 HP clamped to max health
when below it; otherwise the "already at full health" branch.  The `Bool`
reports which branch ran (`true` = healed). -/
def heal (c : Character) : Character × Bool :=
  if c.health < c.max_health then
    ({ c with health := min c.max_health (c.health + 10) }, true)
  else
    (c, false)

/-- The per-slot tick of `Character.update` for a tuple-valued status
(`base.py` lines 188–191): decrement the duration only while it is > 0. -/
def tickSlot (s : Slot) : Slot :=
  if s.2 > 0 then (s.1, s.2 - 1) else s

/-- The tick of `Character.update` for the int-valued `stunned` slot
(`base.py` lines 192–196): decrement while > 0, then clamp anything ≤ 0
up to 0. -/
def tickStun (v : Int) : Int :=
  let v := if v > 0 then v - 1 else v
  if v ≤ 0 then 0 else v

/-- The per-cooldown tick of `Character.update` (`base.py` lines 199–201):
decrement every positive cooldown by 1. -/
def cdTick (n : Nat) : Nat :=
  if n > 0 then n - 1 else n

/-- `Character.update` (`base.py` lines 181–201): tick every status slot,
then every cooldown. -/
def charUpdate (c : Character) : Character :=
  { c with
    stunned := tickStun c.stunned
    weakened := tickSlot c.weakened
    vulnerable := tickSlot c.vulnerable
    slowed := tickSlot c.slowed
    shielded := tickSlot c.shielded
    empowered := tickSlot c.empowered
    evade_boost := tickSlot c.evade_boost
    cooldowns := c.cooldowns.map (fun p => (p.1, cdTick p.2)) }

/-- The names of the status-effect slots of `base.py`. -/
inductive SlotName
  | weakened | vulnerable | slowed | shielded | empowered | evade_boost
  deriving Repr, DecidableEq

/-- Modelled from the spec: `apply_status` is called throughout
`characters.py` but is not defined anywhere in the repository source;
the spec's StatusEffectSet operation `apply(slot, magnitude, duration)`
"overwrites the slot's (magnitude, duration) pair … no stacking — last
write wins". -/
def apply_status (c : Character) (slot : SlotName) (mag : Rat) (dur : Int) :
    Character :=
  match slot with
  | .weakened => { c with weakened := (mag, dur) }
  | .vulnerable => { c with vulnerable := (mag, dur) }
  | .slowed => { c with slowed := (mag, dur) }
  | .shielded => { c with shielded := (mag, dur) }
  | .empowered => { c with empowered := (mag, dur) }
  | .evade_boost => { c with evade_boost := (mag, dur) }

/-- A freshly constructed `Character(name, health, attack_power, defense,
evasion_chance, abilities)`: full health, no cache, all status slots clear,
every ability's cooldown 0 (`base.py` lines 10–46). -/
def mkCharacter (name : String) (health attack_power defense
    evasion_chance : Rat) (abilities : List (String × Nat)) : Character :=
  { name := name
    health := health
    attack_power := attack_power
    cached_attack_roll := none
    defense := defense
    evasion_chance := evasion_chance
    max_health := health
    stunned := 0
    weakened := (0, 0)
    vulnerable := (0, 0)
    slowed := (0, 0)
    shielded := (0, 0)
    empowered := (0, 0)
    evade_boost := (0, 0)
    abilities := abilities
    cooldowns := abilities.map (fun p => (p.1, 0)) }

/-- `Warrior.__init__` (`characters.py` lines 10–24): the `Character` state
plus the `raging` flag. -/
structure Warrior where
  c : Character
  raging : Bool
  deriving Repr, DecidableEq

/-- A fresh `Warrior(name)`: 140 HP, 25 attack, 15 defense, 5% evasion,
one ability `shield_bash` with cooldown 3, not raging. -/
def mkWarrior (name : String) : Warrior :=
  { c := mkCharacter name 140 25 15 (1/20) [("shield_bash", 3)]
    raging := false }

/-- `Warrior.berserker_rage` (`characters.py` lines 43–63): below 30%
health and not yet raging, apply `empowered` 10 and `shielded` 5 with the
permanent sentinel duration -1; at ≥ 30% while raging, overwrite both slots
with (0, 0). -/
def berserker_rage (w : Warrior) : Warrior :=
  let ratio := w.c.health / w.c.max_health
  if ¬w.raging ∧ ratio < 3/10 then
    { c := apply_status (apply_status w.c .empowered 10 (-1)) .shielded 5 (-1)
      raging := true }
  else if w.raging ∧ ratio ≥ 3/10 then
    { c := apply_status (apply_status w.c .empowered 0 0) .shielded 0 0
      raging := false }
  else
    w

/-- `Warrior.update` (`characters.py` lines 26–31): the base
`Character.update`, then the rage passive. -/
def warriorUpdate (w : Warrior) : Warrior :=
  berserker_rage { w with c := charUpdate w.c }

/-- A fresh `Assassin(name)` (`characters.py` lines 180–191): 100 HP,
40 attack, 2 defense, 25% evasion, abilities `shadow_step` (cd 3) and
`smoke_bomb` (cd 4). -/
def mkAssassin (name : String) : Character :=
  mkCharacter name 100 40 2 (1/4) [("shadow_step", 3), ("smoke_bomb", 4)]

/-- `Assassin.shadow_step` (`characters.py` lines 193–202): apply
`empowered` of half the attack power to self for 2 turns, and overwrite the
opponent's `evade_boost` slot with (0, 2).  Returns (assassin, opponent). -/
def shadow_step (a t : Character) : Character × Character :=
  (apply_status a .empowered (a.attack_power * (1/2)) 2,
   { t with evade_boost := (0, 2) })

/-- A fresh `EvilWizard(name)` (`enemy.py` lines 10–34): 150 HP, 15 attack,
5 defense, 25% evasion, abilities `shadow_veil` (cd 5), `dark_bolt` (cd 3),
`drain_life` (cd 3), `curse` (cd 5). -/
def mkEvilWizard (name : String) : Character :=
  mkCharacter name 150 15 5 (1/4)
    [("shadow_veil", 5), ("dark_bolt", 3), ("drain_life", 3), ("curse", 5)]

/-- `EvilWizard.drain_life` (`enemy.py` lines 53–66): if the target does not
evade, subtract 20 from the target's health and heal self by `20 // 2 = 10`
clamped to max health.  `evadeRoll` is the target's evasion sample.
Returns (wizard, target). -/
def drain_life (w t : Character) (evadeRoll : Rat) : Character × Character :=
  if try_evade t evadeRoll then
    (w, t)
  else
    ({ w with health := min w.max_health (w.health + 10) },
     { t with health := t.health - 20 })

/-- `EvilWizard.regenerate` (`enemy.py` lines 93–102): heal 5 HP up to max
health unless already defeated. -/
def regenerate (c : Character) : Character :=
  if c.health ≤ 0 then c
  else { c with health := min c.max_health (c.health + 5) }

/-- `EvilWizard.update` (`enemy.py` lines 36–38): the base
`Character.update`, then the regeneration passive. -/
def wizardUpdate (c : Character) : Character :=
  regenerate (charUpdate c)

/-- The player half of one iteration of the `battle` loop (`battle.py`
lines 13–18).  `handle` stands for the separately defined
`handle_player_turn` (interactive action resolution, returning the mutated
pair and the continue flag) and `upd` for the dynamically dispatched
`player.update()`; both are passed in because `battle` only calls them.
If the player's `stunned` slot is active the action is skipped entirely;
`update` runs unless the player quit. -/
def playerTurnStep (handle : Character → Character → Character × Character × Bool)
    (upd : Character → Character) (player enemy : Character) :
    Character × Character × Bool :=
  if player.stunned > 0 then
    (upd player, enemy, true)
  else
    let (p, e, cont) := handle player enemy
    if cont then (upd p, e, true) else (p, e, false)

/-- The enemy half of one iteration of the `battle` loop (`battle.py`
lines 24–30): runs only while the enemy is alive; a stunned enemy takes no
action; `enemy.update()` runs afterwards either way.  `handle` stands for
`handle_enemy_turn` and `upd` for the dispatched `enemy.update()`. -/
def enemyTurnStep (handle : Character → Character → Character × Character)
    (upd : Character → Character) (enemy player : Character) :
    Character × Character :=
  if enemy.health > 0 then
    let (e, p) := if enemy.stunned > 0 then (enemy, player) else handle enemy player
    (upd e, p)
  else
    (enemy, player)

/-- One full iteration of the `battle` while-loop (`battle.py` lines 9–34):
player half, then (unless the player quit) the enemy half. -/
def battleRound
    (handleP : Character → Character → Character × Character × Bool)
    (updP : Character → Character)
    (handleE : Character → Character → Character × Character)
    (updE : Character → Character)
    (player enemy : Character) : Character × Character × Bool :=
  let (p, e, cont) := playerTurnStep handleP updP player enemy
  if cont then
    let (e2, p2) := enemyTurnStep handleE updE e p
    (p2, e2, true)
  else
    (p, e, false)

/-! ## Helper lemmas -/

theorem lookupNat_dictSet (l : List (String × Nat)) (k : String) (v : Nat) :
    lookupNat (dictSet l k v) k = some v := by
  induction l with
  | nil => simp [dictSet, lookupNat]
  | cons p rest ih =>
    by_cases h : p.1 = k
    · simp [dictSet, lookupNat, h]
    · simp [dictSet, lookupNat, h, ih]

theorem lookupNat_map_cdTick (l : List (String × Nat)) (k : String) :
    lookupNat (l.map fun p => (p.1, cdTick p.2)) k =
      (lookupNat l k).map cdTick := by
  induction l with
  | nil => simp [lookupNat]
  | cons p rest ih =>
    by_cases h : p.1 = k
    · simp [lookupNat, h]
    · simp [lookupNat, h, ih]

theorem cdTick_eq_sub_one (n : Nat) : cdTick n = n - 1 := by
  unfold cdTick
  split <;> omega

theorem cdTick_iterate (N C : Nat) : cdTick^[N] C = C - N := by
  induction N generalizing C with
  | zero => simp
  | succ n ih =>
    rw [Function.iterate_succ_apply, cdTick_eq_sub_one, ih]
    omega

/-! ## Claims -/

/-- Claim C1, counterexample: a character with base attack power 25, no
cached roll and both the empowered and weakened slots inactive, whose fresh
attack roll is the legal `randint(25, 30)` outcome 26, gets effective
attack 26, not the base attack power 25 — `get_effective_attack` computes
from a random roll in [base, base+5], not from the base itself. -/
theorem C1_base_attack_counterexample :
    (mkCharacter "A" 100 25 5 0 []).attack_power = 25 ∧
    (mkCharacter "A" 100 25 5 0 []).cached_attack_roll = none ∧
    (mkCharacter "A" 100 25 5 0 []).empowered.2 = 0 ∧
    (mkCharacter "A" 100 25 5 0 []).weakened.2 = 0 ∧
    (mkCharacter "A" 100 25 5 0 []).attack_power ≤ 26 ∧
    (26 : Rat) ≤ (mkCharacter "A" 100 25 5 0 []).attack_power + 5 ∧
    (get_effective_attack (mkCharacter "A" 100 25 5 0 []) 26).1 = 26 ∧
    (get_effective_attack (mkCharacter "A" 100 25 5 0 []) 26).1 ≠
      (mkCharacter "A" 100 25 5 0 []).attack_power := by
  refine ⟨rfl, rfl, rfl, rfl, by norm_num [mkCharacter],
    by norm_num [mkCharacter], ?_, ?_⟩ <;>
    norm_num [mkCharacter, get_effective_attack, effAttackVal]

/-- Claim C1 (amended): with no cached roll, the effective attack equals
the freshly drawn attack roll (uniform in [base, base+5]) plus the
empowered magnitude if its turns-remaining > 0, minus the weakened
magnitude if its turns-remaining > 0, floored at 1; with both slots
inactive it equals the roll itself floored at 1 — the base attack power
only bounds the roll from below. -/
theorem C1_effective_attack (c : Character) (fresh : Rat)
    (hc : c.cached_attack_roll = none) :
    (get_effective_attack c fresh).1 =
      max 1 (fresh + (if c.empowered.2 > 0 then c.empowered.1 else 0)
                   - (if c.weakened.2 > 0 then c.weakened.1 else 0)) ∧
    (c.empowered.2 = 0 → c.weakened.2 = 0 →
      (get_effective_attack c fresh).1 = max 1 fresh) := by
  constructor
  · simp only [get_effective_attack, effAttackVal, hc, Option.getD]
    split_ifs <;> ring_nf
  · intro he hw
    simp [get_effective_attack, effAttackVal, hc, he, hw]

/-- Witness for C1: a concrete character with attack power 25, empty
status set and fresh roll 27 has effective attack 27. -/
theorem C1_effective_attack_witness :
    (get_effective_attack (mkCharacter "W" 100 25 5 0 []) 27).1 = 27 := by
  have h := (C1_effective_attack (mkCharacter "W" 100 25 5 0 []) 27 rfl).2
  rw [h rfl rfl]
  norm_num

/-- Claim C2: in `attack`, if the evasion sample is below the target's
effective evasion the call only clears the attacker's cached roll and
leaves the target untouched; otherwise the target's health drops by
exactly `max 1 (effective attack − effective defense)` with no clamping
at 0, and in both cases the cached roll is `None` after the call. -/
theorem C2_attack_resolution (a t : Character) (r fresh : Rat) :
    (r < get_effective_evasion t →
      attack a t r fresh = ({ a with cached_attack_roll := none }, t)) ∧
    (¬ r < get_effective_evasion t →
      (attack a t r fresh).2 =
        { t with health :=
            t.health -
              max 1 ((get_effective_attack a fresh).1 -
                get_effective_defense t) }) ∧
    (attack a t r fresh).1.cached_attack_roll = none := by
  by_cases h : r < get_effective_evasion t <;>
    simp [attack, try_evade, h, get_effective_attack]

/-- Witness for C2: the Evil Wizard (no cached roll, fresh roll 17)
attacks a dummy with 0 evasion and defense 5: the sample 1/2 does not
evade, the dummy's health drops from 100 by exactly
`max 1 (17 − 5) = 12`, and the wizard's cache is clear afterwards. -/
theorem C2_attack_resolution_witness :
    (attack (mkEvilWizard "Z") (mkCharacter "D" 100 20 5 0 []) (1/2) 17).2.health
      = 88 ∧
    (attack (mkEvilWizard "Z") (mkCharacter "D" 100 20 5 0 []) (1/2) 17).1.cached_attack_roll
      = none := by
  have h := C2_attack_resolution (mkEvilWizard "Z")
    (mkCharacter "D" 100 20 5 0 []) (1/2) 17
  refine ⟨?_, h.2.2⟩
  have h2 := h.2.1 (by norm_num [get_effective_evasion, mkCharacter])
  rw [h2]
  norm_num [mkCharacter, mkEvilWizard, get_effective_attack,
    get_effective_defense, effAttackVal]

/-- Claim C5: `heal` below max health raises health by 10 clamped to max
health (never exceeding it); at exactly max health it changes nothing and
reports the already-at-full-health branch (`false`). -/
theorem C5_heal (c : Character) :
    (c.health < c.max_health →
      heal c = ({ c with health := min c.max_health (c.health + 10) }, true) ∧
      (heal c).1.health ≤ c.max_health) ∧
    (c.health = c.max_health → heal c = (c, false)) := by
  constructor
  · intro h
    refine ⟨by simp [heal, h], ?_⟩
    simp [heal, h]
  · intro h
    simp [heal, h]

/-- Witness for C5: a wizard at 145/150 heals to exactly 150 (clamped),
and a full-health wizard's heal is the reported no-op. -/
theorem C5_heal_witness :
    heal { mkEvilWizard "Z" with health := 145 } =
      ({ mkEvilWizard "Z" with health := 150 }, true) ∧
    heal (mkEvilWizard "Z") = (mkEvilWizard "Z", false) := by
  constructor
  · have h := (C5_heal { mkEvilWizard "Z" with health := 145 }).1
      (by norm_num [mkEvilWizard, mkCharacter])
    rw [h.1]
    norm_num [mkEvilWizard, mkCharacter]
  · exact (C5_heal (mkEvilWizard "Z")).2 rfl

/-- Claim C6: for a registered ability (present in the `abilities` dict
with cooldown length `cd`), `use_ability` with the ability's cooldown
counter at 0 returns `true` and writes `cd` into the counter; with the
counter positive it returns `false` and leaves the character — cooldowns
included — completely unchanged. -/
theorem C6_use_ability (c : Character) (name : String) (cd : Nat)
    (hab : lookupNat c.abilities name = some cd) :
    ((lookupNat c.cooldowns name).getD 0 = 0 →
      use_ability c name =
        some ({ c with cooldowns := dictSet c.cooldowns name cd }, true) ∧
      lookupNat (dictSet c.cooldowns name cd) name = some cd) ∧
    (0 < (lookupNat c.cooldowns name).getD 0 →
      use_ability c name = some (c, false)) := by
  constructor
  · intro h
    refine ⟨?_, lookupNat_dictSet c.cooldowns name cd⟩
    simp [use_ability, hab, is_ability_ready, h]
  · intro h
    have hne : ¬ (lookupNat c.cooldowns name).getD 0 = 0 := by omega
    simp [use_ability, hab, is_ability_ready, hne]

/-- Witness for C6: the Evil Wizard's `drain_life` is registered with
cooldown 3 and starts ready, so activating it succeeds and sets the
counter to 3; on a wizard whose counter is 2 it fails and is the
identity. -/
theorem C6_use_ability_witness :
    use_ability (mkEvilWizard "Z") "drain_life" =
      some ({ mkEvilWizard "Z" with
        cooldowns := dictSet (mkEvilWizard "Z").cooldowns "drain_life" 3 },
        true) ∧
    lookupNat (dictSet (mkEvilWizard "Z").cooldowns "drain_life" 3)
      "drain_life" = some 3 ∧
    use_ability { mkEvilWizard "Z" with
        cooldowns := dictSet (mkEvilWizard "Z").cooldowns "drain_life" 2 }
      "drain_life" =
      some ({ mkEvilWizard "Z" with
        cooldowns := dictSet (mkEvilWizard "Z").cooldowns "drain_life" 2 },
        false) := by
  have h1 := C6_use_ability (mkEvilWizard "Z") "drain_life" 3 (by decide)
  have h2 := C6_use_ability { mkEvilWizard "Z" with
      cooldowns := dictSet (mkEvilWizard "Z").cooldowns "drain_life" 2 }
    "drain_life" 3 (by decide)
  exact ⟨(h1.1 (by decide)).1, (h1.1 (by decide)).2, h2.2 (by decide)⟩

/-- Claim C7: the end-of-turn cooldown tick of `Character.update` takes a
counter at `C` to `C − N` after `N ≤ C` applications, never drops below 0
(`N ≥ C` applications leave it at 0), and `update` applies exactly this
tick to every cooldown entry. -/
theorem C7_cooldown_tick (C N : Nat) (c : Character) (name : String) :
    (N ≤ C → cdTick^[N] C = C - N) ∧
    (C ≤ N → cdTick^[N] C = 0) ∧
    lookupNat (charUpdate c).cooldowns name =
      (lookupNat c.cooldowns name).map cdTick := by
  refine ⟨fun _ => cdTick_iterate N C, fun h => ?_, ?_⟩
  · rw [cdTick_iterate]
    omega
  · simpa [charUpdate] using lookupNat_map_cdTick c.cooldowns name

/-- Witness for C7: three ticks take a counter from 3 to 0, five ticks
keep it at 0, and `update` on a fresh wizard maps its `drain_life`
counter through the tick. -/
theorem C7_cooldown_tick_witness :
    cdTick^[2] 3 = 1 ∧ cdTick^[5] 3 = 0 ∧
    lookupNat (charUpdate (mkEvilWizard "Z")).cooldowns "drain_life" =
      (lookupNat (mkEvilWizard "Z").cooldowns "drain_life").map cdTick := by
  have h := C7_cooldown_tick 3 2 (mkEvilWizard "Z") "drain_life"
  have h5 := C7_cooldown_tick 3 5 (mkEvilWizard "Z") "drain_life"
  exact ⟨h.1 (by omega), h5.2.1 (by omega), h.2.2⟩

/-- Claim C8: with `drain_life` ready, invoking it against a target that
does not evade lowers the target's health by exactly 20 and raises the
wizard's health by 10 clamped to (and hence never above) its max
health. -/
theorem C8_drain_life (w t : Character) (r : Rat)
    (_hcd : is_ability_ready w "drain_life" = true)
    (hmiss : ¬ try_evade t r = true) :
    (drain_life w t r).2.health = t.health - 20 ∧
    (drain_life w t r).1.health = min w.max_health (w.health + 10) ∧
    (drain_life w t r).1.health ≤ w.max_health := by
  refine ⟨?_, ?_, ?_⟩ <;> simp [drain_life, hmiss]

/-- Witness for C8: the Evil Wizard at 100/150 HP with `drain_life` ready
drains a 0-evasion dummy at 100 HP (sample 1/2): the dummy ends at 80 and
the wizard at 110. -/
theorem C8_drain_life_witness :
    (drain_life { mkEvilWizard "Z" with health := 100 }
      (mkCharacter "D" 100 20 5 0 []) (1/2)).2.health = 80 ∧
    (drain_life { mkEvilWizard "Z" with health := 100 }
      (mkCharacter "D" 100 20 5 0 []) (1/2)).1.health = 110 := by
  have h := C8_drain_life { mkEvilWizard "Z" with health := 100 }
    (mkCharacter "D" 100 20 5 0 []) (1/2) (by decide)
    (by norm_num [try_evade, get_effective_evasion, mkCharacter])
  refine ⟨by rw [h.1]; norm_num [mkCharacter], by rw [h.2.1]; norm_num [mkEvilWizard, mkCharacter]⟩

/-- Claim C9: in a round of the battle loop, a stunned actor's half of the
round ignores the action handler entirely — the result is exactly the
actor's `update` with the other combatant untouched — and when both are
stunned the whole round reduces to the two `update` calls.  `handleP` /
`handleE` stand for `handle_player_turn` / `handle_enemy_turn` and
`updP` / `updE` for the dynamically dispatched `update` methods, exactly
as `battle` invokes them. -/
theorem C9_stun_skips_action
    (handleP : Character → Character → Character × Character × Bool)
    (updP : Character → Character)
    (handleE : Character → Character → Character × Character)
    (updE : Character → Character)
    (player enemy : Character) :
    (player.stunned > 0 →
      playerTurnStep handleP updP player enemy = (updP player, enemy, true)) ∧
    (enemy.stunned > 0 → enemy.health > 0 →
      enemyTurnStep handleE updE enemy player = (updE enemy, player)) ∧
    (player.stunned > 0 → enemy.stunned > 0 → enemy.health > 0 →
      battleRound handleP updP handleE updE player enemy =
        (updP player, updE enemy, true)) := by
  refine ⟨fun hp => ?_, fun he hh => ?_, fun hp he hh => ?_⟩
  · simp [playerTurnStep, hp]
  · simp [enemyTurnStep, he, hh]
  · simp [battleRound, playerTurnStep, enemyTurnStep, hp, he, hh]

/-- Witness for C9: with a stunned warrior-stat player and a stunned,
alive Evil Wizard, the round is exactly the two updates, for the concrete
handlers that attack and the real `update` functions. -/
theorem C9_stun_skips_action_witness :
    battleRound
      (fun p e => ((attack p e (1/2) 27).1, (attack p e (1/2) 27).2, true))
      charUpdate
      (fun e p => ((attack e p (1/2) 17).2, (attack e p (1/2) 17).1))
      wizardUpdate
      { mkCharacter "P" 140 25 15 (1/20) [("shield_bash", 3)] with stunned := 1 }
      { mkEvilWizard "Z" with stunned := 2 } =
      (charUpdate { mkCharacter "P" 140 25 15 (1/20) [("shield_bash", 3)] with
          stunned := 1 },
       wizardUpdate { mkEvilWizard "Z" with stunned := 2 }, true) := by
  exact (C9_stun_skips_action _ _ _ _ _ _).2.2 (by decide) (by decide)
    (by norm_num [mkEvilWizard, mkCharacter])

/-- Claim C10: a magnitude slot carrying the permanent sentinel duration
-1 is never decremented by `update`, yet every effective-stat computation
treats it exactly like an inactive slot (the active test is
turns-remaining > 0), so its magnitude never contributes to effective
attack, defense or evasion. -/
theorem C10_sentinel_inactive (c : Character) (fresh : Rat) :
    (∀ s : Slot, s.2 = -1 → tickSlot s = s) ∧
    (c.empowered.2 = -1 → (charUpdate c).empowered = c.empowered) ∧
    (c.shielded.2 = -1 → (charUpdate c).shielded = c.shielded) ∧
    (c.empowered.2 = -1 →
      effAttackVal c fresh = effAttackVal { c with empowered := (0, 0) } fresh) ∧
    (c.weakened.2 = -1 →
      effAttackVal c fresh = effAttackVal { c with weakened := (0, 0) } fresh) ∧
    (c.shielded.2 = -1 →
      get_effective_defense c = get_effective_defense { c with shielded := (0, 0) }) ∧
    (c.vulnerable.2 = -1 →
      get_effective_defense c = get_effective_defense { c with vulnerable := (0, 0) }) ∧
    (c.evade_boost.2 = -1 →
      get_effective_evasion c = get_effective_evasion { c with evade_boost := (0, 0) }) ∧
    (c.slowed.2 = -1 →
      get_effective_evasion c = get_effective_evasion { c with slowed := (0, 0) }) := by
  refine ⟨fun s hs => by simp [tickSlot, hs], ?_, ?_, ?_, ?_, ?_, ?_, ?_, ?_⟩ <;>
    intro h <;>
    simp [charUpdate, tickSlot, effAttackVal, get_effective_defense,
      get_effective_evasion, h]

/-- Witness for C10: a character whose empowered slot is (10, -1) keeps it
unchanged through `update` and has the same effective attack as with the
slot cleared. -/
theorem C10_sentinel_inactive_witness :
    (charUpdate { mkCharacter "S" 100 25 5 0 [] with
        empowered := (10, -1) }).empowered = (10, -1) ∧
    effAttackVal { mkCharacter "S" 100 25 5 0 [] with
        empowered := (10, -1) } 26 =
      effAttackVal { { mkCharacter "S" 100 25 5 0 [] with
        empowered := (10, -1) } with empowered := (0, 0) } 26 := by
  have h := C10_sentinel_inactive
    { mkCharacter "S" 100 25 5 0 [] with empowered := (10, -1) } 26
  exact ⟨h.2.1 rfl, h.2.2.2.1 rfl⟩

/-- Claim C3, code evaluated at the failing input: a Warrior dropped to
40/140 HP (ratio 2/7 < 0.30) and `update()`'d gets its empowered slot set
to (10, -1) and shielded to (5, -1) and starts raging — but the sentinel
turns-remaining -1 fails the `> 0` active test, so neither slot is active
and the promised +10 attack / +5 defense never materialise: with any
attack roll `r ≥ 1` the effective attack is `r`, not `r + 10`, and the
effective defense stays 15.  Further updates at low health leave the slots
in place, and an update once health is back at 100/140 clears both. -/
theorem C3_rage_failing_input :
    (warriorUpdate { mkWarrior "T" with
        c := { (mkWarrior "T").c with health := 40 } }).c.empowered = (10, -1) ∧
    (warriorUpdate { mkWarrior "T" with
        c := { (mkWarrior "T").c with health := 40 } }).c.shielded = (5, -1) ∧
    (warriorUpdate { mkWarrior "T" with
        c := { (mkWarrior "T").c with health := 40 } }).raging = true ∧
    ¬ ((warriorUpdate { mkWarrior "T" with
        c := { (mkWarrior "T").c with health := 40 } }).c.empowered.2 > 0) ∧
    ¬ ((warriorUpdate { mkWarrior "T" with
        c := { (mkWarrior "T").c with health := 40 } }).c.shielded.2 > 0) ∧
    effAttackVal (warriorUpdate { mkWarrior "T" with
        c := { (mkWarrior "T").c with health := 40 } }).c 25 = 25 ∧
    get_effective_defense (warriorUpdate { mkWarrior "T" with
        c := { (mkWarrior "T").c with health := 40 } }).c = 15 ∧
    (warriorUpdate (warriorUpdate { mkWarrior "T" with
        c := { (mkWarrior "T").c with health := 40 } })).c.empowered = (10, -1) ∧
    (warriorUpdate { warriorUpdate { mkWarrior "T" with
          c := { (mkWarrior "T").c with health := 40 } } with
        c := { (warriorUpdate { mkWarrior "T" with
          c := { (mkWarrior "T").c with health := 40 } }).c with
            health := 100 } }).c.empowered = (0, 0) ∧
    (warriorUpdate { warriorUpdate { mkWarrior "T" with
          c := { (mkWarrior "T").c with health := 40 } } with
        c := { (warriorUpdate { mkWarrior "T" with
          c := { (mkWarrior "T").c with health := 40 } }).c with
            health := 100 } }).c.shielded = (0, 0) := by
  norm_num [warriorUpdate, berserker_rage, charUpdate, tickSlot, tickStun,
    cdTick, mkWarrior, mkCharacter, apply_status, effAttackVal,
    get_effective_defense]

/-- Claim C4, code evaluated at the failing input: the Assassin's
`shadow_step` against the Evil Wizard (base evasion 0.25) does overwrite
the wizard's evade-boost slot with (0, 2) and does empower the Assassin by
`0.5 × 40 = 20` for 2 turns, but adding the boost magnitude 0 leaves the
wizard's effective evasion at 0.25, not 0 — contradicting the ability's
own description ("bypasses evasion" / "Removes evasion"). -/
theorem C4_shadow_step_failing_input :
    (shadow_step (mkAssassin "V") (mkEvilWizard "Z")).2.evade_boost = (0, 2) ∧
    (shadow_step (mkAssassin "V") (mkEvilWizard "Z")).1.empowered = (20, 2) ∧
    get_effective_evasion (shadow_step (mkAssassin "V") (mkEvilWizard "Z")).2
      = 1/4 ∧
    get_effective_evasion (shadow_step (mkAssassin "V") (mkEvilWizard "Z")).2
      ≠ 0 := by
  norm_num [shadow_step, apply_status, mkAssassin, mkEvilWizard, mkCharacter,
    get_effective_evasion]
